import Mathlib

/-!
Shallow embedding of the OhFixIt desktop helper's action-execution and
rollback engine (`src/desktop-helper/src-tauri/src/main.rs`).

External effects are modelled as explicit inputs:
* process spawning: an oracle `os : Nat → SpawnResult` giving the outcome of
  the i-th spawned child process;
* JWT decoding (the `jsonwebtoken::decode` library call): an
  `Except String Claims` value, the outcome of decoding the supplied token;
* the HTTP report call: an `Except String Unit` outcome;
* UUID generation (`uuid::Uuid::new_v4`): a `fresh_uuid : String` input;
* base64 encoding (the `base64` crate): a `b64 : String → String` input;
* clock reads (`Utc::now()`): a `now : Nat` (seconds since epoch) or an
  rfc3339 string input.

Everything else (control flow, error messages, data construction) follows the
Rust source line by line.  Each embedded function additionally returns the
list of child processes it spawned (program, argument list) and the error-log
entries it emitted, so that "spawns zero child processes" and "failures are
logged only" become statable properties.
-/

/-- JWT claims decoded from an OhFixIt token (Rust struct `Claims`). -/
structure Claims where
  chat_id : Option String
  user_id : Option String
  anonymous_id : Option String
  action_id : String
  approval_id : String
  scope : String
  exp : Nat
  iat : Nat
  deriving Repr, DecidableEq

/-- Rust struct `ActionArtifact`. -/
structure ActionArtifact where
  artifact_type : String
  uri : Option String
  hash : Option String
  data : Option String
  deriving Repr, DecidableEq

/-- Rust struct `ActionResult`: the value a command returns to the caller. -/
structure ActionResult where
  success : Bool
  message : String
  error : Option String
  artifacts : Option (List ActionArtifact)
  rollback_id : Option String
  deriving Repr, DecidableEq

/-- Rust struct `ActionDefinition`: one allowlisted catalog entry. -/
structure ActionDefinition where
  id : String
  title : String
  os : String
  commands : List String
  rollback_commands : List String
  reversible : Bool
  estimated_time : String
  requirements : List String
  creates_backup : Bool
  deriving Repr, DecidableEq

/-- `ActionDefinition::new`: reversible by default, no rollback commands,
`creates_backup = false`. -/
def ActionDefinition.new (id title os : String) (commands : List String) :
    ActionDefinition :=
  { id := id
    title := title
    os := os
    commands := commands
    rollback_commands := []
    reversible := true
    estimated_time := "10 seconds"
    requirements := ["Administrator privileges"]
    creates_backup := false }

/-- `ActionDefinition::with_rollback`: sets the rollback command list and
flips `creates_backup` to `true` (it does not touch `reversible`). -/
def ActionDefinition.with_rollback (a : ActionDefinition)
    (rollback_commands : List String) : ActionDefinition :=
  { a with rollback_commands := rollback_commands, creates_backup := true }

/-- Catalog entry `"flush-dns-macos"` from `AppState::new`. -/
def flushDnsMacos : ActionDefinition :=
  ActionDefinition.new "flush-dns-macos" "Flush DNS Cache (macOS)" "macos"
    ["sudo dscacheutil -flushcache",
     "sudo killall -HUP mDNSResponder"]

/-- Catalog entry `"toggle-wifi-macos"` from `AppState::new` (the title's
stray bytes reproduce the source file verbatim). -/
def toggleWifiMacos : ActionDefinition :=
  (ActionDefinition.new "toggle-wifi-macos" "Toggle Wi‚ÄëFi (macOS)" "macos"
    ["networksetup -getairportpower en0 > /tmp/wifi_state_backup.txt",
     "networksetup -setairportpower en0 off",
     "sleep 2",
     "networksetup -setairportpower en0 on"]).with_rollback
    ["if grep -q \x27On\x27 /tmp/wifi_state_backup.txt; then networksetup -setairportpower en0 on; else networksetup -setairportpower en0 off; fi",
     "rm -f /tmp/wifi_state_backup.txt"]

/-- Catalog entry `"clear-app-cache"` from `AppState::new`. -/
def clearAppCache : ActionDefinition :=
  (ActionDefinition.new "clear-app-cache" "Clear App Cache (macOS)" "macos"
    ["mkdir -p /tmp/cache_backup_$(date +%s)",
     "find ~/Library/Caches -name \"*.cache\" -type f -exec cp \x7b\x7d /tmp/cache_backup_$(date +%s)/ \\; 2>/dev/null || true",
     "find ~/Library/Caches -name \"*.cache\" -type f -delete 2>/dev/null || true"]).with_rollback
    ["latest_backup=$(ls -t /tmp/cache_backup_* | head -1)",
     "if [ -d \"$latest_backup\" ]; then cp \"$latest_backup\"/* ~/Library/Caches/ 2>/dev/null || true; fi"]

/-- Catalog entry `"restart-finder"` from `AppState::new`. -/
def restartFinder : ActionDefinition :=
  ActionDefinition.new "restart-finder" "Restart Finder (macOS)" "macos"
    ["killall Finder"]

/-- Catalog entry `"clear-recent-items"` from `AppState::new`. -/
def clearRecentItems : ActionDefinition :=
  ActionDefinition.new "clear-recent-items" "Clear Recent Items (macOS)" "macos"
    ["defaults delete com.apple.recentitems RecentApplications 2>/dev/null || true",
     "defaults delete com.apple.recentitems RecentDocuments 2>/dev/null || true",
     "defaults delete com.apple.recentitems RecentServers 2>/dev/null || true"]

/-- Catalog entry `"reset-launchpad"` from `AppState::new`. -/
def resetLaunchpad : ActionDefinition :=
  ActionDefinition.new "reset-launchpad" "Reset Launchpad Layout (macOS)" "macos"
    ["defaults write com.apple.dock ResetLaunchPad -bool true",
     "killall Dock"]

/-- Catalog entry `"clear-system-logs"` from `AppState::new`. -/
def clearSystemLogs : ActionDefinition :=
  ActionDefinition.new "clear-system-logs" "Clear Old System Logs (macOS)" "macos"
    ["sudo rm -rf /private/var/log/asl/*.asl 2>/dev/null || true",
     "sudo rm -rf /private/var/log/DiagnosticMessages/*.asl 2>/dev/null || true"]

/-- The action catalog built in `AppState::new`, as an association list
(the Rust `HashMap` is only ever looked up by key and its keys are
pairwise distinct, so an association list has the same semantics). -/
def appStateActions : List (String × ActionDefinition) :=
  [("flush-dns-macos", flushDnsMacos),
   ("toggle-wifi-macos", toggleWifiMacos),
   ("clear-app-cache", clearAppCache),
   ("restart-finder", restartFinder),
   ("clear-recent-items", clearRecentItems),
   ("reset-launchpad", resetLaunchpad),
   ("clear-system-logs", clearSystemLogs)]

/-- `state.actions.get(&action_id)` on the association-list model. -/
def actionsGet (actions : List (String × ActionDefinition)) (action_id : String) :
    Option ActionDefinition :=
  (actions.find? (fun p => p.1 == action_id)).map (fun p => p.2)

/-- Outcome of one `Command::new(program).args(args).output()` call, as
reported by the operating system: `ok` carries the exit status
(`result.status.success()`) and the captured stdout/stderr, `err` is a spawn
failure (`Err(e)`). -/
inductive SpawnResult where
  | ok (exitSuccess : Bool) (stdout stderr : String)
  | err (msg : String)
  deriving Repr, DecidableEq

/-- Accumulator loop for `split_whitespace`: `acc` holds the current token's
characters in reverse. -/
def split_whitespace_go : List Char → List Char → List String
  | [], acc => if acc.isEmpty then [] else [String.mk acc.reverse]
  | ch :: rest, acc =>
    if ch.isWhitespace then
      if acc.isEmpty then split_whitespace_go rest []
      else String.mk acc.reverse :: split_whitespace_go rest []
    else split_whitespace_go rest (ch :: acc)

/-- Rust `str::split_whitespace`: the maximal non-whitespace runs of the
string, in order (no empty tokens). -/
def split_whitespace (s : String) : List String :=
  split_whitespace_go s.data []

/-- What `execute_commands` produces: the `(all_success, output)` pair the
Rust function returns inside `Ok`, plus the list of spawned child processes
(program name and argument list) as instrumentation. -/
structure ExecResult where
  success : Bool
  output : String
  spawns : List (String × List String)
  deriving Repr, DecidableEq

/-- The loop of `execute_commands`, with the mutable `all_success` and
`output` accumulators made explicit.  `idx` counts spawned processes so the
OS oracle can give each spawn its own outcome.  A command whose
`split_whitespace` is empty is skipped (`continue`). -/
def execGo (os : Nat → SpawnResult) : List String → Nat → Bool → String →
    List (String × List String) → ExecResult
  | [], _, all_success, output, spawns => ⟨all_success, output, spawns⟩
  | command :: rest, idx, all_success, output, spawns =>
    match split_whitespace command with
    | [] => execGo os rest idx all_success output spawns
    | program :: args =>
      match os idx with
      | .ok exitSuccess stdout stderr =>
        let output := output ++ "Command: " ++ command ++ "\n"
        let output := if stdout.isEmpty then output
          else output ++ "Output: " ++ stdout ++ "\n"
        let output := if stderr.isEmpty then output
          else output ++ "Error: " ++ stderr ++ "\n"
        execGo os rest (idx + 1) (all_success && exitSuccess) output
          (spawns ++ [(program, args)])
      | .err e =>
        execGo os rest (idx + 1) false
          (output ++ "Failed to execute command \x27" ++ command ++ "\x27: " ++ e ++ "\n")
          (spawns ++ [(program, args)])

/-- Rust `execute_commands` (which always returns
`Ok((all_success, output))`; the spawn trace is instrumentation). -/
def execute_commands (os : Nat → SpawnResult) (commands : List String) :
    ExecResult :=
  execGo os commands 0 true "" []

/-- Whether a single spawn counts as a successful step: spawned and exited
with status 0. -/
def stepOk : SpawnResult → Bool
  | .ok exitSuccess _ _ => exitSuccess
  | .err _ => false

/-- The commands of a batch that actually reach the spawn call: those whose
whitespace split is non-empty. -/
def runnableCmds (cmds : List String) : List String :=
  cmds.filter (fun c => !(split_whitespace c).isEmpty)

/-- The (program, args) pair `execute_commands` spawns for a command. -/
def spawnOf (c : String) : String × List String :=
  match split_whitespace c with
  | [] => ("", [])
  | program :: args => (program, args)

/-- The transcript block one executed command contributes. -/
def blockOf (c : String) (r : SpawnResult) : String :=
  match r with
  | .ok _ stdout stderr =>
    let o := "Command: " ++ c ++ "\n"
    let o := if stdout.isEmpty then o else o ++ "Output: " ++ stdout ++ "\n"
    if stderr.isEmpty then o else o ++ "Error: " ++ stderr ++ "\n"
  | .err e => "Failed to execute command \x27" ++ c ++ "\x27: " ++ e ++ "\n"

/-- The transcript blocks of a batch, starting at spawn index `idx`. -/
def blocksFrom (os : Nat → SpawnResult) (idx : Nat) : List String → List String
  | [] => []
  | c :: rest =>
    match split_whitespace c with
    | [] => blocksFrom os idx rest
    | _ :: _ => blockOf c (os idx) :: blocksFrom os (idx + 1) rest

/-- Whether every executed step of a batch succeeds, starting at spawn
index `idx`. -/
def allOkFrom (os : Nat → SpawnResult) (idx : Nat) : List String → Bool
  | [] => true
  | c :: rest =>
    match split_whitespace c with
    | [] => allOkFrom os idx rest
    | _ :: _ => stepOk (os idx) && allOkFrom os (idx + 1) rest

/-- Rust `create_artifacts`: one `execution_log` artifact whose hash is the
base64 encoding of the output (`b64` models the `base64` crate's
`STANDARD.encode`). -/
def create_artifacts (b64 : String → String) (_action_id : String)
    (output : String) : List ActionArtifact :=
  [{ artifact_type := "execution_log"
     uri := none
     hash := some (b64 output)
     data := some output }]

/-- Result of one in-process command invocation (`execute_action` /
`execute_rollback`): the `Result<ActionResult, String>` returned to the
caller, the child processes spawned, and the error-log entries emitted. -/
structure InvokeResult where
  result : Except String ActionResult
  spawns : List (String × List String)
  logs : List String

/-- The `match result` tail of `execute_action` (after
`execute_commands` has run): builds the `ActionResult` and logs a reporting
failure.  `exec` is the `Result<(bool, String), String>` from
`execute_commands`, `report` the outcome of `report_result`. -/
def execute_action_finish (action_id : String) (action : ActionDefinition)
    (exec : Except String (Bool × String)) (report : Except String Unit)
    (fresh_uuid : String) (b64 : String → String) :
    Except String ActionResult × List String :=
  match exec with
  | .ok (success, output) =>
    let logs := match report with
      | .ok _ => []
      | .error e => ["Failed to report result: " ++ e]
    (.ok { success := success
           message := output
           error := if success then none else some output
           artifacts := some (create_artifacts b64 action_id output)
           rollback_id := if action.reversible then some fresh_uuid else none },
     logs)
  | .error e =>
    let error_msg := "‚ùå " ++ action.title ++ " execution error: " ++ e
    (.ok { success := false
           message := error_msg
           error := some error_msg
           artifacts := none
           rollback_id := none },
     [])

/-- Rust `execute_action` (tauri command), for the macOS build (the
`#[cfg(target_os = "macos")]` OS-compatibility check is present).  Order of
checks follows the source: catalog lookup, JWT decode, expiry, OS
compatibility, then command execution and best-effort reporting. -/
def execute_action (actions : List (String × ActionDefinition))
    (action_id : String) (decoded : Except String Claims) (now : Nat)
    (os : Nat → SpawnResult) (report : Except String Unit)
    (fresh_uuid : String) (b64 : String → String) : InvokeResult :=
  match actionsGet actions action_id with
  | none => ⟨.error ("Action \x27" ++ action_id ++ "\x27 not allowlisted"), [], []⟩
  | some action =>
    match decoded with
    | .error e => ⟨.error ("Invalid token: " ++ e), [], []⟩
    | .ok claims =>
      if claims.exp < now then
        ⟨.error "Token expired", [], []⟩
      else if action.os ≠ "macos" then
        ⟨.error ("Action \x27" ++ action_id ++ "\x27 not compatible with macOS"), [], []⟩
      else
        let exec := execute_commands os action.commands
        let fin := execute_action_finish action_id action
          (.ok (exec.success, exec.output)) report fresh_uuid b64
        ⟨fin.1, exec.spawns, fin.2⟩

/-- The `match result` tail of `execute_rollback`: note `artifacts` is
`Some(vec![])` and `rollback_id` is always `None`. -/
def execute_rollback_finish (action : ActionDefinition)
    (exec : Except String (Bool × String)) (report : Except String Unit) :
    Except String ActionResult × List String :=
  match exec with
  | .ok (success, output) =>
    let logs := match report with
      | .ok _ => []
      | .error e => ["Failed to report rollback result: " ++ e]
    (.ok { success := success
           message := output
           error := if success then none else some output
           artifacts := some []
           rollback_id := none },
     logs)
  | .error e =>
    let error_msg := "‚ùå " ++ action.title ++ " rollback execution error: " ++ e
    (.ok { success := false
           message := error_msg
           error := some error_msg
           artifacts := none
           rollback_id := none },
     [])

/-- Rust `execute_rollback` (tauri command).  Order of checks follows the
source: catalog lookup, JWT decode, expiry, then the reversibility guard
`!action.reversible || action.rollback_commands.is_empty()`, then execution
of the rollback command list and best-effort reporting. -/
def execute_rollback (actions : List (String × ActionDefinition))
    (action_id : String) (_rollback_id : String)
    (decoded : Except String Claims) (now : Nat) (os : Nat → SpawnResult)
    (report : Except String Unit) : InvokeResult :=
  match actionsGet actions action_id with
  | none => ⟨.error ("Action \x27" ++ action_id ++ "\x27 not allowlisted"), [], []⟩
  | some action =>
    match decoded with
    | .error e => ⟨.error ("Invalid token: " ++ e), [], []⟩
    | .ok claims =>
      if claims.exp < now then
        ⟨.error "Token expired", [], []⟩
      else if !action.reversible || action.rollback_commands.isEmpty then
        ⟨.error ("Action \x27" ++ action_id ++ "\x27 is not reversible"), [], []⟩
      else
        let exec := execute_commands os action.rollback_commands
        let fin := execute_rollback_finish action
          (.ok (exec.success, exec.output)) report
        ⟨fin.1, exec.spawns, fin.2⟩

/-- The `data` object of a `RollbackPoint` as built in `report_result`. -/
structure RollbackData where
  action_id : String
  timestamp : String
  output_hash : String
  deriving Repr, DecidableEq

/-- Rust struct `RollbackPoint` (its `serde_json::Value` data field holds
exactly the three keys of `RollbackData`). -/
structure RollbackPoint where
  method : String
  data : RollbackData
  deriving Repr, DecidableEq

/-- The JSON body `report_result` posts to
`{server_url}/api/automation/helper/report`. -/
structure ReportPayload where
  actionId : String
  success : Bool
  output : String
  artifacts : List ActionArtifact
  rollbackPoint : Option RollbackPoint
  timestamp : String
  deriving Repr, DecidableEq

/-- The payload construction inside Rust `report_result`: a
`RollbackPoint` is attached iff `success` (the actual HTTP send is an
external effect). -/
def report_result_payload (b64 : String → String) (action_id : String)
    (success : Bool) (output : String) (now_rfc3339 : String) : ReportPayload :=
  let artifacts := create_artifacts b64 action_id output
  let rollback_point : Option RollbackPoint :=
    if success then
      some { method := "command_sequence"
             data := { action_id := action_id
                       timestamp := now_rfc3339
                       output_hash := b64 output } }
    else none
  { actionId := action_id
    success := success
    output := output
    artifacts := artifacts
    rollbackPoint := rollback_point
    timestamp := now_rfc3339 }

/-- Rust struct `AutomationExecuteResponse`. -/
structure AutomationExecuteResponse where
  success : Bool
  output : String
  deriving Repr, DecidableEq

/-- Rust `automation_execute_handler` (the loopback HTTP execute endpoint).
Unlike the tauri commands, it validates the token *before* the catalog
lookup; its report call's outcome is discarded (`let _ = ...`).  Returns the
response plus the spawn trace. -/
def automation_execute_handler (actions : List (String × ActionDefinition))
    (actionId : String) (decoded : Except String Claims) (now : Nat)
    (os : Nat → SpawnResult) (_report : Except String Unit) :
    AutomationExecuteResponse × List (String × List String) :=
  match decoded with
  | .error _ => (⟨false, "Unauthorized"⟩, [])
  | .ok claims =>
    if claims.exp < now then
      (⟨false, "Token expired"⟩, [])
    else
      match actionsGet actions actionId with
      | none => (⟨false, "Action \x27" ++ actionId ++ "\x27 not allowlisted"⟩, [])
      | some action =>
        let exec := execute_commands os action.commands
        (⟨exec.success, exec.output⟩, exec.spawns)

theorem allOkFrom_eq_true_iff (os : Nat → SpawnResult) (cmds : List String) :
    ∀ idx, allOkFrom os idx cmds = true ↔
      ∀ i, i < (runnableCmds cmds).length → stepOk (os (idx + i)) = true := by
  induction cmds with
  | nil => intro idx; simp [allOkFrom, runnableCmds]
  | cons c rest ih =>
    intro idx
    cases h : split_whitespace c with
    | nil =>
      have : runnableCmds (c :: rest) = runnableCmds rest := by
        simp [runnableCmds, List.filter_cons, h]
      rw [this]
      simpa [allOkFrom, h] using ih idx
    | cons p args =>
      have hrun : runnableCmds (c :: rest) = c :: runnableCmds rest := by
        simp [runnableCmds, List.filter_cons, h]
      rw [hrun]
      simp only [allOkFrom, h, Bool.and_eq_true, ih (idx + 1), List.length_cons]
      constructor
      · rintro ⟨h0, hrest⟩ i hi
        cases i with
        | zero => simpa using h0
        | succ j =>
          have : idx + (j + 1) = (idx + 1) + j := by omega
          rw [this]
          exact hrest j (by omega)
      · intro hall
        refine ⟨by simpa using hall 0 (by omega), fun j hj => ?_⟩
        have : (idx + 1) + j = idx + (j + 1) := by omega
        rw [this]
        exact hall (j + 1) (by omega)

theorem blocksFrom_get? (os : Nat → SpawnResult) (cmds : List String) :
    ∀ idx i, (blocksFrom os idx cmds).get? i =
      ((runnableCmds cmds).get? i).map (fun c => blockOf c (os (idx + i))) := by
  induction cmds with
  | nil => intro idx i; simp [blocksFrom, runnableCmds]
  | cons c rest ih =>
    intro idx i
    cases h : split_whitespace c with
    | nil =>
      have : runnableCmds (c :: rest) = runnableCmds rest := by
        simp [runnableCmds, List.filter_cons, h]
      rw [this]
      simpa [blocksFrom, h] using ih idx i
    | cons p args =>
      have hrun : runnableCmds (c :: rest) = c :: runnableCmds rest := by
        simp [runnableCmds, List.filter_cons, h]
      rw [hrun]
      cases i with
      | zero => simp [blocksFrom, h]
      | succ j =>
        have : idx + (j + 1) = (idx + 1) + j := by omega
        simp only [blocksFrom, h, List.get?_cons_succ, this]
        exact ih (idx + 1) j

/-- Test oracle: every spawn succeeds with empty output. -/
def osAllOk : Nat → SpawnResult := fun _ => .ok true "" ""

/-- Test oracle: every spawn exits with a non-zero status. -/
def osAllFail : Nat → SpawnResult := fun _ => .ok false "" ""

/-- Test oracle for the spec example `["true", "false", "echo ok"]`: the
first spawn exits 0, the second exits non-zero, the third exits 0 printing
`ok`. -/
def osTrueFalseEcho : Nat → SpawnResult := fun i =>
  if i = 0 then .ok true "" ""
  else if i = 1 then .ok false "" ""
  else .ok true "ok\n" ""

/-- A concrete claims record for witnesses (`exp` is the parameter). -/
def mkClaims (action_id : String) (e : Nat) : Claims :=
  { chat_id := none
    user_id := none
    anonymous_id := none
    action_id := action_id
    approval_id := "approval-1"
    scope := "automation"
    exp := e
    iat := 0 }

/-- A catalog entry with `reversible = false`, used to instantiate theorems
at a non-reversible action (no such entry exists in the shipped catalog,
whose entries are all built by `ActionDefinition::new` with
`reversible: true`). -/
def nonReversibleAction : ActionDefinition :=
  { flushDnsMacos with reversible := false }

theorem string_join_cons (s : String) (l : List String) :
    String.join (s :: l) = s ++ String.join l := by
  simp [String.join_eq]
  rfl

theorem runnableCmds_cons_skip {c : String} (h : split_whitespace c = [])
    (rest : List String) : runnableCmds (c :: rest) = runnableCmds rest := by
  simp [runnableCmds, List.filter_cons, h]

theorem runnableCmds_cons_run {c : String} {p : String} {args : List String}
    (h : split_whitespace c = p :: args) (rest : List String) :
    runnableCmds (c :: rest) = c :: runnableCmds rest := by
  simp [runnableCmds, List.filter_cons, h]

theorem execGo_spawns (os : Nat → SpawnResult) (cmds : List String) :
    ∀ idx all_success output spawns,
      (execGo os cmds idx all_success output spawns).spawns =
        spawns ++ (runnableCmds cmds).map spawnOf := by
  induction cmds with
  | nil => intro idx b out sp; simp [execGo, runnableCmds]
  | cons c rest ih =>
    intro idx b out sp
    cases h : split_whitespace c with
    | nil =>
      rw [runnableCmds_cons_skip h]
      simpa [execGo, h] using ih idx b out sp
    | cons p args =>
      rw [runnableCmds_cons_run h]
      cases hr : os idx with
      | ok exitSuccess stdout stderr =>
        simp only [execGo, h, hr, ih]
        simp [spawnOf, h]
      | err e =>
        simp only [execGo, h, hr, ih]
        simp [spawnOf, h]

theorem execGo_success (os : Nat → SpawnResult) (cmds : List String) :
    ∀ idx all_success output spawns,
      (execGo os cmds idx all_success output spawns).success =
        (all_success && allOkFrom os idx cmds) := by
  induction cmds with
  | nil => intro idx b out sp; simp [execGo, allOkFrom]
  | cons c rest ih =>
    intro idx b out sp
    cases h : split_whitespace c with
    | nil => simpa [execGo, h, allOkFrom] using ih idx b out sp
    | cons p args =>
      cases hr : os idx with
      | ok exitSuccess stdout stderr =>
        simp only [execGo, h, hr, ih, allOkFrom, stepOk]
        cases b <;> cases exitSuccess <;> simp
      | err e =>
        simp only [execGo, h, hr, ih, allOkFrom, stepOk]
        simp

theorem execGo_output (os : Nat → SpawnResult) (cmds : List String) :
    ∀ idx all_success output spawns,
      (execGo os cmds idx all_success output spawns).output =
        output ++ String.join (blocksFrom os idx cmds) := by
  induction cmds with
  | nil => intro idx b out sp; simp [execGo, blocksFrom, String.join_eq]
  | cons c rest ih =>
    intro idx b out sp
    cases h : split_whitespace c with
    | nil => simpa [execGo, h, blocksFrom] using ih idx b out sp
    | cons p args =>
      cases hr : os idx with
      | ok exitSuccess stdout stderr =>
        simp only [execGo, h, hr, ih, blocksFrom, blockOf, string_join_cons]
        by_cases hso : stdout.isEmpty <;> by_cases hse : stderr.isEmpty <;>
          simp [hso, hse, String.append_assoc]
      | err e =>
        simp only [execGo, h, hr, ih, blocksFrom, blockOf, string_join_cons]
        simp [String.append_assoc]

theorem execute_commands_spawns (os : Nat → SpawnResult) (cmds : List String) :
    (execute_commands os cmds).spawns = (runnableCmds cmds).map spawnOf := by
  simp [execute_commands, execGo_spawns]

theorem execute_commands_output (os : Nat → SpawnResult) (cmds : List String) :
    (execute_commands os cmds).output = String.join (blocksFrom os 0 cmds) := by
  simp [execute_commands, execGo_output, String.empty_append]

theorem execute_commands_success (os : Nat → SpawnResult) (cmds : List String) :
    (execute_commands os cmds).success = allOkFrom os 0 cmds := by
  simp [execute_commands, execGo_success]

/-- Claim C1, counterexample to the claim as stated.  Take the command list
`["false", ""]` with an OS on which `false` exits non-zero.  The claim says
that after the failing step every remaining command is still executed and
each command contributes a block to the transcript; but the second command
(the whitespace-only string) is never executed — only one child process is
spawned — and the transcript holds a block only for the first command. -/
theorem claim_C1_counterexample :
    (execute_commands osAllFail ["false", ""]).spawns = [("false", [])] ∧
    (execute_commands osAllFail ["false", ""]).output = "Command: false\n" ∧
    (execute_commands osAllFail ["false", ""]).success = false := by
  exact ⟨rfl, rfl, rfl⟩

/-- Claim C1 (amended): for every ordered command list, a failing step
(non-zero exit or spawn failure) does not stop the batch — every remaining
command *whose string contains a non-whitespace token* is still executed
(whitespace-only command strings are skipped without a transcript block);
each executed command contributes one block to the transcript, in order; and
the aggregate success flag is true iff every executed step succeeded. -/
theorem claim_C1_amended (os : Nat → SpawnResult) (cmds : List String) :
    (execute_commands os cmds).spawns = (runnableCmds cmds).map spawnOf ∧
    (execute_commands os cmds).output = String.join (blocksFrom os 0 cmds) ∧
    (∀ i, (blocksFrom os 0 cmds).get? i =
      ((runnableCmds cmds).get? i).map (fun c => blockOf c (os i))) ∧
    ((execute_commands os cmds).success = true ↔
      ∀ i, i < (runnableCmds cmds).length → stepOk (os i) = true) := by
  refine ⟨execute_commands_spawns os cmds, execute_commands_output os cmds, ?_, ?_⟩
  · intro i
    simpa using blocksFrom_get? os cmds 0 i
  · rw [execute_commands_success]
    simpa using allOkFrom_eq_true_iff os cmds 0

/-- Witness for C1 at the spec's example `["true", "false", "echo ok"]`: all
three commands spawn even though the second fails, the transcript holds all
three blocks with the third command's output `ok` present, and aggregate
success is false. -/
theorem claim_C1_amended_witness :
    (execute_commands osTrueFalseEcho ["true", "false", "echo ok"]).spawns =
      [("true", []), ("false", []), ("echo", ["ok"])] ∧
    (execute_commands osTrueFalseEcho ["true", "false", "echo ok"]).output =
      "Command: true\nCommand: false\nCommand: echo ok\nOutput: ok\n\n" ∧
    ¬ (execute_commands osTrueFalseEcho ["true", "false", "echo ok"]).success = true := by
  have h := claim_C1_amended osTrueFalseEcho ["true", "false", "echo ok"]
  refine ⟨by rw [h.1]; rfl, by rw [h.2.1]; rfl, fun hs => ?_⟩
  have h1 := h.2.2.2.mp hs 1 (by decide)
  simp [osTrueFalseEcho, stepOk] at h1

/-- Claim C6: each command string is split on whitespace only — the first
token is spawned as the program, the remaining tokens are its arguments —
and the string never goes through a shell: in the concrete conjunct the
shell metacharacters `&&` and `/tmp/x` of a single command string become
literal arguments of one single `echo` spawn instead of two commands. -/
theorem claim_C6 (os : Nat → SpawnResult) (cmds : List String) :
    (execute_commands os cmds).spawns = (runnableCmds cmds).map spawnOf ∧
    (∀ c p args, split_whitespace c = p :: args → spawnOf c = (p, args)) ∧
    (execute_commands osAllOk ["echo ok && rm -rf /tmp/x"]).spawns =
      [("echo", ["ok", "&&", "rm", "-rf", "/tmp/x"])] := by
  refine ⟨execute_commands_spawns os cmds, ?_, rfl⟩
  intro c p args h
  simp [spawnOf, h]

/-- Witness for C6: the two catalog commands of `flush-dns-macos` are split
into program `sudo` plus literal argument lists. -/
theorem claim_C6_witness :
    (execute_commands osAllOk flushDnsMacos.commands).spawns =
      [("sudo", ["dscacheutil", "-flushcache"]),
       ("sudo", ["killall", "-HUP", "mDNSResponder"])] := by
  rw [(claim_C6 osAllOk flushDnsMacos.commands).1]
  rfl

/-- Claim C2: for a decoded credential with `exp < now`, both `execute_action`
and `execute_rollback` fail with the `Token expired` error, spawn zero child
processes and log nothing; a credential with `exp == now` passes the expiry
check (the comparison is the strict `claims.exp < now`), so with all other
checks passing the request is accepted and returns an `ActionResult`. -/
theorem claim_C2 (actions : List (String × ActionDefinition))
    (action_id rollback_id : String) (claims : Claims) (now : Nat)
    (os : Nat → SpawnResult) (report : Except String Unit)
    (fresh_uuid : String) (b64 : String → String) (action : ActionDefinition)
    (hfind : actionsGet actions action_id = some action) :
    (claims.exp < now →
      execute_action actions action_id (.ok claims) now os report fresh_uuid b64 =
        ⟨.error "Token expired", [], []⟩ ∧
      execute_rollback actions action_id rollback_id (.ok claims) now os report =
        ⟨.error "Token expired", [], []⟩) ∧
    (claims.exp = now →
      (action.os = "macos" →
        ∃ r, (execute_action actions action_id (.ok claims) now os report
          fresh_uuid b64).result = .ok r) ∧
      (action.reversible = true → action.rollback_commands ≠ [] →
        ∃ r, (execute_rollback actions action_id rollback_id (.ok claims) now os
          report).result = .ok r)) := by
  constructor
  · intro hexp
    constructor
    · simp [execute_action, hfind, hexp]
    · simp [execute_rollback, hfind, hexp]
  · intro heq
    have hnotlt : ¬ claims.exp < now := by omega
    constructor
    · intro hos
      simp [execute_action, hfind, hnotlt, hos, execute_action_finish]
    · intro hrev hne
      simp [execute_rollback, hfind, hnotlt, hrev, List.isEmpty_iff, hne,
        execute_rollback_finish]

/-- Witness for C2 at the catalog entry `toggle-wifi-macos`: a credential
with `exp = 5` against `now = 6` is rejected with `Token expired`, and a
credential with `exp = 6` against `now = 6` is accepted for rollback. -/
theorem claim_C2_witness :
    execute_action appStateActions "toggle-wifi-macos"
        (.ok (mkClaims "toggle-wifi-macos" 5)) 6 osAllOk (.ok ()) "uuid-1"
        (fun s => s) =
      ⟨.error "Token expired", [], []⟩ ∧
    (∃ r, (execute_rollback appStateActions "toggle-wifi-macos" "rb-1"
        (.ok (mkClaims "toggle-wifi-macos" 6)) 6 osAllOk (.ok ())).result =
      .ok r) := by
  constructor
  · exact ((claim_C2 appStateActions "toggle-wifi-macos" "rb-1"
      (mkClaims "toggle-wifi-macos" 5) 6 osAllOk (.ok ()) "uuid-1" (fun s => s)
      toggleWifiMacos rfl).1 (by decide)).1
  · exact ((claim_C2 appStateActions "toggle-wifi-macos" "rb-1"
      (mkClaims "toggle-wifi-macos" 6) 6 osAllOk (.ok ()) "uuid-1" (fun s => s)
      toggleWifiMacos rfl).2 rfl).2 rfl (by decide)

/-- Claim C3, counterexample to the claim as stated.  `flush-dns-macos` has
an empty rollback list, so it is in the claim's scope; but with an *invalid*
credential (decode fails), `execute_rollback` fails with the token error
`Invalid token: ...`, not with the `NotReversible` error — the credential is
checked before reversibility, so "always fails with NotReversible regardless
of credential validity" is false. -/
theorem claim_C3_counterexample :
    flushDnsMacos.rollback_commands = [] ∧
    actionsGet appStateActions "flush-dns-macos" = some flushDnsMacos ∧
    (execute_rollback appStateActions "flush-dns-macos" "rb-1"
        (.error "InvalidSignature") 0 osAllOk (.ok ())).result =
      .error "Invalid token: InvalidSignature" ∧
    "Invalid token: InvalidSignature" ≠
      "Action \x27flush-dns-macos\x27 is not reversible" := by
  exact ⟨rfl, rfl, rfl, by decide⟩

/-- Claim C3 (amended): for a catalog entry with `reversible = false` or an
empty rollback list, `execute_rollback` always fails and spawns zero child
processes; the error is `NotReversible` whenever the credential decodes
successfully and is unexpired, while an invalid or expired credential makes
it fail with the credential error instead (the token checks run first). -/
theorem claim_C3_amended (actions : List (String × ActionDefinition))
    (action_id rollback_id : String) (decoded : Except String Claims)
    (now : Nat) (os : Nat → SpawnResult) (report : Except String Unit)
    (action : ActionDefinition)
    (hfind : actionsGet actions action_id = some action)
    (hnr : action.reversible = false ∨ action.rollback_commands = []) :
    (execute_rollback actions action_id rollback_id decoded now os report).spawns
      = [] ∧
    (execute_rollback actions action_id rollback_id decoded now os report).logs
      = [] ∧
    (∃ e, (execute_rollback actions action_id rollback_id decoded now os
      report).result = .error e) ∧
    (∀ claims, decoded = .ok claims → ¬ claims.exp < now →
      (execute_rollback actions action_id rollback_id decoded now os
        report).result =
        .error ("Action \x27" ++ action_id ++ "\x27 is not reversible")) := by
  have hguard : (!action.reversible || action.rollback_commands.isEmpty) = true := by
    rcases hnr with h | h <;> simp [h]
  cases decoded with
  | error e =>
    refine ⟨by simp [execute_rollback, hfind], by simp [execute_rollback, hfind],
      ⟨"Invalid token: " ++ e, by simp [execute_rollback, hfind]⟩, ?_⟩
    intro claims h
    cases h
  | ok claims =>
    by_cases hexp : claims.exp < now
    · refine ⟨by simp [execute_rollback, hfind, hexp],
        by simp [execute_rollback, hfind, hexp],
        ⟨"Token expired", by simp [execute_rollback, hfind, hexp]⟩, ?_⟩
      intro claims2 heq hnot
      cases heq
      exact absurd hexp hnot
    · refine ⟨by simp [execute_rollback, hfind, hexp, hguard],
        by simp [execute_rollback, hfind, hexp, hguard],
        ⟨"Action \x27" ++ action_id ++ "\x27 is not reversible",
          by simp [execute_rollback, hfind, hexp, hguard]⟩, ?_⟩
      intro claims2 heq _
      cases heq
      simp [execute_rollback, hfind, hexp, hguard]

/-- Witness for C3 (amended) at `flush-dns-macos` (empty rollback list) with
a valid, unexpired credential: rollback spawns nothing and fails with the
`NotReversible` error. -/
theorem claim_C3_amended_witness :
    (execute_rollback appStateActions "flush-dns-macos" "rb-1"
        (.ok (mkClaims "flush-dns-macos" 6)) 6 osAllOk (.ok ())).spawns = [] ∧
    (execute_rollback appStateActions "flush-dns-macos" "rb-1"
        (.ok (mkClaims "flush-dns-macos" 6)) 6 osAllOk (.ok ())).result =
      .error "Action \x27flush-dns-macos\x27 is not reversible" := by
  have h := claim_C3_amended appStateActions "flush-dns-macos" "rb-1"
    (.ok (mkClaims "flush-dns-macos" 6)) 6 osAllOk (.ok ()) flushDnsMacos rfl
    (Or.inr rfl)
  exact ⟨h.1, h.2.2.2 (mkClaims "flush-dns-macos" 6) rfl (by decide)⟩

/-- Claim C4: for an action identifier absent from the catalog,
`execute_action` and `execute_rollback` fail with the action-not-found
(`not allowlisted`) error, spawn zero child processes and log nothing, for
any credential (valid, invalid or expired — the catalog lookup runs before
the token checks).  The HTTP endpoint `automation_execute_handler` likewise
spawns nothing and fails; it reports the action-not-found message whenever
the token is accepted (there the token checks run first). -/
theorem claim_C4 (actions : List (String × ActionDefinition))
    (action_id rollback_id : String) (decoded : Except String Claims)
    (now : Nat) (os : Nat → SpawnResult) (report : Except String Unit)
    (fresh_uuid : String) (b64 : String → String)
    (habsent : actionsGet actions action_id = none) :
    execute_action actions action_id decoded now os report fresh_uuid b64 =
      ⟨.error ("Action \x27" ++ action_id ++ "\x27 not allowlisted"), [], []⟩ ∧
    execute_rollback actions action_id rollback_id decoded now os report =
      ⟨.error ("Action \x27" ++ action_id ++ "\x27 not allowlisted"), [], []⟩ ∧
    (automation_execute_handler actions action_id decoded now os report).2 = [] ∧
    (automation_execute_handler actions action_id decoded now os
      report).1.success = false ∧
    (∀ claims, decoded = .ok claims → ¬ claims.exp < now →
      (automation_execute_handler actions action_id decoded now os report).1 =
        ⟨false, "Action \x27" ++ action_id ++ "\x27 not allowlisted"⟩) := by
  refine ⟨by simp [execute_action, habsent], by simp [execute_rollback, habsent],
    ?_, ?_, ?_⟩
  · cases decoded with
    | error e => simp [automation_execute_handler]
    | ok claims =>
      by_cases hexp : claims.exp < now <;>
        simp [automation_execute_handler, hexp, habsent]
  · cases decoded with
    | error e => simp [automation_execute_handler]
    | ok claims =>
      by_cases hexp : claims.exp < now <;>
        simp [automation_execute_handler, hexp, habsent]
  · intro claims heq hnot
    cases heq
    simp [automation_execute_handler, hnot, habsent]

/-- Witness for C4 at the absent identifier `no-such-action` with a valid,
unexpired credential: both commands fail with the not-allowlisted error and
the HTTP handler returns the same message. -/
theorem claim_C4_witness :
    execute_action appStateActions "no-such-action"
        (.ok (mkClaims "no-such-action" 10)) 5 osAllOk (.ok ()) "uuid-1"
        (fun s => s) =
      ⟨.error "Action \x27no-such-action\x27 not allowlisted", [], []⟩ ∧
    (automation_execute_handler appStateActions "no-such-action"
        (.ok (mkClaims "no-such-action" 10)) 5 osAllOk (.ok ())).1 =
      ⟨false, "Action \x27no-such-action\x27 not allowlisted"⟩ := by
  have h := claim_C4 appStateActions "no-such-action" "rb-1"
    (.ok (mkClaims "no-such-action" 10)) 5 osAllOk (.ok ()) "uuid-1"
    (fun s => s) rfl
  exact ⟨h.1, h.2.2.2.2 (mkClaims "no-such-action" 10) rfl (by decide)⟩

/-- Claim C5: an expired but well-formed, correctly-signed credential (decode
succeeded, `exp < now`) makes `execute_action` and `execute_rollback` fail
with exactly the `Token expired` error, while every decode failure (bad
signature, wrong algorithm, malformed token) yields an `Invalid token: ...`
error; `Token expired` is never equal to any such auth-failure message. -/
theorem claim_C5 (actions : List (String × ActionDefinition))
    (action_id rollback_id : String) (claims : Claims) (now : Nat)
    (os : Nat → SpawnResult) (report : Except String Unit)
    (fresh_uuid : String) (b64 : String → String) (action : ActionDefinition)
    (hfind : actionsGet actions action_id = some action)
    (hexp : claims.exp < now) :
    (execute_action actions action_id (.ok claims) now os report fresh_uuid
      b64).result = .error "Token expired" ∧
    (execute_rollback actions action_id rollback_id (.ok claims) now os
      report).result = .error "Token expired" ∧
    (∀ e, (execute_action actions action_id (.error e) now os report fresh_uuid
      b64).result = .error ("Invalid token: " ++ e)) ∧
    (∀ e, (execute_rollback actions action_id rollback_id (.error e) now os
      report).result = .error ("Invalid token: " ++ e)) ∧
    (∀ e, "Token expired" ≠ "Invalid token: " ++ e) := by
  refine ⟨by simp [execute_action, hfind, hexp],
    by simp [execute_rollback, hfind, hexp],
    fun e => by simp [execute_action, hfind],
    fun e => by simp [execute_rollback, hfind],
    fun e h => ?_⟩
  have hlen := congrArg String.length h
  rw [String.length_append] at hlen
  have h1 : ("Token expired" : String).length = 13 := rfl
  have h2 : ("Invalid token: " : String).length = 15 := rfl
  rw [h1, h2] at hlen
  omega

/-- Witness for C5 at `restart-finder` with `exp = 4 < now = 5`: the expired
token produces `Token expired`, an invalid token produces
`Invalid token: InvalidSignature`, and the two messages differ. -/
theorem claim_C5_witness :
    (execute_action appStateActions "restart-finder"
        (.ok (mkClaims "restart-finder" 4)) 5 osAllOk (.ok ()) "uuid-1"
        (fun s => s)).result = .error "Token expired" ∧
    (execute_rollback appStateActions "restart-finder" "rb-1"
        (.error "InvalidSignature") 5 osAllOk (.ok ())).result =
      .error ("Invalid token: " ++ "InvalidSignature") ∧
    "Token expired" ≠ "Invalid token: " ++ "InvalidSignature" := by
  have h := claim_C5 appStateActions "restart-finder" "rb-1"
    (mkClaims "restart-finder" 4) 5 osAllOk (.ok ()) "uuid-1" (fun s => s)
    restartFinder rfl (by decide)
  exact ⟨h.1, h.2.2.2.1 "InvalidSignature", h.2.2.2.2 "InvalidSignature"⟩

/-- Claim C7: the report payload built by `report_result` carries a
`RollbackPoint` iff the execution's aggregate success flag is true; on
success the point is the `command_sequence` method tag with the action id,
the timestamp and the (base64) content hash of the output, and on failure
the payload carries no rollback point. -/
theorem claim_C7 (b64 : String → String) (action_id : String) (success : Bool)
    (output now_rfc3339 : String) :
    ((report_result_payload b64 action_id success output
        now_rfc3339).rollbackPoint.isSome ↔ success = true) ∧
    (success = true →
      (report_result_payload b64 action_id success output
          now_rfc3339).rollbackPoint =
        some { method := "command_sequence"
               data := { action_id := action_id
                         timestamp := now_rfc3339
                         output_hash := b64 output } }) ∧
    (success = false →
      (report_result_payload b64 action_id success output
          now_rfc3339).rollbackPoint = none) := by
  cases success <;> simp [report_result_payload]

/-- Witness for C7: with success the payload holds the rollback point, with
failure it holds none. -/
theorem claim_C7_witness :
    (report_result_payload (fun s => s) "flush-dns-macos" true "out"
        "2025-01-01T00:00:00Z").rollbackPoint =
      some { method := "command_sequence"
             data := { action_id := "flush-dns-macos"
                       timestamp := "2025-01-01T00:00:00Z"
                       output_hash := "out" } } ∧
    (report_result_payload (fun s => s) "flush-dns-macos" false "out"
        "2025-01-01T00:00:00Z").rollbackPoint = none := by
  exact ⟨(claim_C7 (fun s => s) "flush-dns-macos" true "out"
      "2025-01-01T00:00:00Z").2.1 rfl,
    (claim_C7 (fun s => s) "flush-dns-macos" false "out"
      "2025-01-01T00:00:00Z").2.2 rfl⟩

/-- Claim C8: the `ActionResult` returned to the caller and the spawned
child processes are the same whatever the Reporting Client's outcome, for
both `execute_action` and `execute_rollback`; a reporting failure only adds
a log entry (the logs of a failed report are either empty — the early-error
paths never report — or exactly the one failure message). -/
theorem claim_C8 (actions : List (String × ActionDefinition))
    (action_id rollback_id : String) (decoded : Except String Claims)
    (now : Nat) (os : Nat → SpawnResult) (fresh_uuid : String)
    (b64 : String → String) (rep1 rep2 : Except String Unit) :
    (execute_action actions action_id decoded now os rep1 fresh_uuid
        b64).result =
      (execute_action actions action_id decoded now os rep2 fresh_uuid
        b64).result ∧
    (execute_action actions action_id decoded now os rep1 fresh_uuid
        b64).spawns =
      (execute_action actions action_id decoded now os rep2 fresh_uuid
        b64).spawns ∧
    (execute_rollback actions action_id rollback_id decoded now os
        rep1).result =
      (execute_rollback actions action_id rollback_id decoded now os
        rep2).result ∧
    (execute_rollback actions action_id rollback_id decoded now os
        rep1).spawns =
      (execute_rollback actions action_id rollback_id decoded now os
        rep2).spawns ∧
    (∀ e, (execute_action actions action_id decoded now os (.error e)
        fresh_uuid b64).logs = [] ∨
      (execute_action actions action_id decoded now os (.error e) fresh_uuid
        b64).logs = ["Failed to report result: " ++ e]) := by
  cases hf : actionsGet actions action_id with
  | none =>
    simp [execute_action, execute_rollback, hf]
  | some action =>
    cases decoded with
    | error e =>
      simp [execute_action, execute_rollback, hf]
    | ok claims =>
      by_cases hexp : claims.exp < now
      · simp [execute_action, execute_rollback, hf, hexp]
      · refine ⟨?_, ?_, ?_, ?_, ?_⟩ <;>
          simp only [execute_action, execute_rollback, hf, hexp, if_false,
            execute_action_finish, execute_rollback_finish] <;>
          split <;>
          simp [execute_action_finish, execute_rollback_finish]

/-- Witness for C8 at `restart-finder`: a failed report call leaves the
returned result identical to the one with a successful report, and its only
trace is the log entry. -/
theorem claim_C8_witness :
    (execute_action appStateActions "restart-finder"
        (.ok (mkClaims "restart-finder" 10)) 5 osAllOk (.error "connection refused")
        "uuid-1" (fun s => s)).result =
      (execute_action appStateActions "restart-finder"
        (.ok (mkClaims "restart-finder" 10)) 5 osAllOk (.ok ()) "uuid-1"
        (fun s => s)).result ∧
    ((execute_action appStateActions "restart-finder"
        (.ok (mkClaims "restart-finder" 10)) 5 osAllOk
        (.error "connection refused") "uuid-1" (fun s => s)).logs = [] ∨
      (execute_action appStateActions "restart-finder"
        (.ok (mkClaims "restart-finder" 10)) 5 osAllOk
        (.error "connection refused") "uuid-1" (fun s => s)).logs =
        ["Failed to report result: " ++ "connection refused"]) := by
  have h := claim_C8 appStateActions "restart-finder" "rb-1"
    (.ok (mkClaims "restart-finder" 10)) 5 osAllOk "uuid-1" (fun s => s)
    (.error "connection refused") (.ok ())
  exact ⟨h.1, h.2.2.2.2 "connection refused"⟩

/-- Claim C9: in the catalog built at startup (`AppState::new`), every entry
with `creates_backup = true` is reversible and has a non-empty rollback
command list.  (The catalog is a fixed constant of the embedding — no
operation of the program produces a modified catalog, matching the Rust
code, which holds the map behind a lock but only ever reads it.) -/
theorem claim_C9 (key : String) (a : ActionDefinition)
    (hmem : (key, a) ∈ appStateActions) (hcb : a.creates_backup = true) :
    a.reversible = true ∧ a.rollback_commands ≠ [] := by
  fin_cases hmem <;>
    first
      | exact ⟨rfl, by decide⟩
      | exact absurd hcb (by decide)

/-- Witness for C9 at the entry `toggle-wifi-macos`, which creates a backup:
it is reversible and its rollback list is non-empty. -/
theorem claim_C9_witness :
    toggleWifiMacos.reversible = true ∧ toggleWifiMacos.rollback_commands ≠ [] := by
  exact claim_C9 "toggle-wifi-macos" toggleWifiMacos (by decide) rfl

/-- Claim C10: when `execute_action` reaches command execution (action found,
token accepted and unexpired, OS compatible), the returned `ActionResult`
carries the freshly generated rollback id exactly when the action is
reversible — independently of the aggregate success flag; and on the
`execute_commands` error branch of the `match` (dead in this source, since
`execute_commands` always returns `Ok`) the rollback id is `None`. -/
theorem claim_C10 (actions : List (String × ActionDefinition))
    (action_id : String) (claims : Claims) (now : Nat)
    (os : Nat → SpawnResult) (report : Except String Unit)
    (fresh_uuid : String) (b64 : String → String) (action : ActionDefinition)
    (hfind : actionsGet actions action_id = some action)
    (hexp : ¬ claims.exp < now) (hos : action.os = "macos") :
    (∃ r, (execute_action actions action_id (.ok claims) now os report
        fresh_uuid b64).result = .ok r ∧
      r.rollback_id = (if action.reversible then some fresh_uuid else none)) ∧
    (∀ e, ∃ r, (execute_action_finish action_id action (.error e) report
        fresh_uuid b64).1 = .ok r ∧ r.rollback_id = none) := by
  constructor
  · have hres : (execute_action actions action_id (.ok claims) now os report
        fresh_uuid b64).result =
        .ok { success := (execute_commands os action.commands).success
              message := (execute_commands os action.commands).output
              error := if (execute_commands os action.commands).success then none
                else some (execute_commands os action.commands).output
              artifacts := some (create_artifacts b64 action_id
                (execute_commands os action.commands).output)
              rollback_id := if action.reversible then some fresh_uuid
                else none } := by
      simp [execute_action, hfind, hexp, hos, execute_action_finish]
    exact ⟨_, hres, rfl⟩
  · intro e
    exact ⟨_, rfl, rfl⟩

/-- Witness for C10: even though every spawn fails (aggregate success is
false), executing the reversible `toggle-wifi-macos` returns rollback id
`uuid-1`; executing an action with `reversible = false` returns none. -/
theorem claim_C10_witness :
    (∃ r, (execute_action appStateActions "toggle-wifi-macos"
        (.ok (mkClaims "toggle-wifi-macos" 10)) 5 osAllFail (.ok ()) "uuid-1"
        (fun s => s)).result = .ok r ∧ r.rollback_id = some "uuid-1") ∧
    (∃ r, (execute_action [("flush-dns-macos", nonReversibleAction)]
        "flush-dns-macos" (.ok (mkClaims "flush-dns-macos" 10)) 5 osAllFail
        (.ok ()) "uuid-1" (fun s => s)).result = .ok r ∧
      r.rollback_id = none) := by
  constructor
  · have h := (claim_C10 appStateActions "toggle-wifi-macos"
      (mkClaims "toggle-wifi-macos" 10) 5 osAllFail (.ok ()) "uuid-1"
      (fun s => s) toggleWifiMacos rfl (by decide) rfl).1
    simpa using h
  · have h := (claim_C10 [("flush-dns-macos", nonReversibleAction)]
      "flush-dns-macos" (mkClaims "flush-dns-macos" 10) 5 osAllFail (.ok ())
      "uuid-1" (fun s => s) nonReversibleAction rfl (by decide) rfl).1
    simpa using h
